import Mathlib

/-!
Verification development for the AI-ORM-generator service.

The embedding models three source files:
- `src/app/ai_orm.py` : prompt construction (`buildPrompt`, the f-string in
  `generate_filters_with_ai`), the single chat call and the markdown-fence
  sanitization in `run_chat`;
- `src/services/ai_service.py` : `AIService.chat`, one completion request with
  `max_tokens=1024`, returning `response.choices[0].message.content`;
- `src/app/api.py` : the `POST /api/generate` handler `generate`, which checks
  the `backend_secret` header against the `BACKEND_SECRET` environment value
  and otherwise forwards to the orchestrator.

The LLM provider is abstracted as a function argument; provider failures are
modelled with `Except`, and each function additionally returns the trace of
calls it issues, so that claims about call counts are statable.
-/

namespace AIOrm

/-! Python string primitives. -/

/-- Whitespace characters recognized by Python's `str.strip()` and the regex
class `\s` (the ASCII ones: space, tab, newline, carriage return, vertical
tab, form feed). -/
def pyIsSpace (c : Char) : Bool :=
  c == ' ' || c == '\t' || c == '\n' || c == '\r' ||
    c == Char.ofNat 11 || c == Char.ofNat 12

/-- Python `str.strip()` on a character list: drop whitespace from both ends. -/
def pystrip (l : List Char) : List Char :=
  ((l.dropWhile pyIsSpace).reverse.dropWhile pyIsSpace).reverse

/-! The substitution `re.sub(r"^```(?:python)?\s*|\s*```$", "", s, flags=re.MULTILINE)`

`re.sub` scans left to right.  At each position it first tries the alternative
`^```(?:python)?\s*` (only when the position is at the start of the string or
right after a newline, because of `^` under MULTILINE), then `\s*```$`
(`$` under MULTILINE holds before a newline or at the end of the string).
A match is removed and scanning resumes at its end; otherwise one character is
copied.  In `\s*```$` the backtracking of the greedy `\s*` is vacuous: a
shorter whitespace run would leave a whitespace character, not a backtick,
after it, so only the maximal run can be followed by the literal backticks. -/

/-- The backtick character, written by code point to keep it out of the
source text proper. -/
def backtick : Char := Char.ofNat 96

/-- Does the list start with three backticks? -/
def startsTriple : List Char → Bool
  | c1 :: c2 :: c3 :: _ => c1 == backtick && c2 == backtick && c3 == backtick
  | _ => false

/-- Does the list start with the literal characters of "python"? -/
def startsPython : List Char → Bool
  | 'p' :: 'y' :: 't' :: 'h' :: 'o' :: 'n' :: _ => true
  | _ => false

/-- Is this position an end of line (`$` under `re.MULTILINE`): the end of the
string, or immediately before a newline? -/
def eolAt : List Char → Bool
  | [] => true
  | c :: _ => c == '\n'

/-- The alternative `^```(?:python)?\s*`, tried only at line starts.  Returns
whether the position after the match is again a line start (i.e. the last
consumed character is a newline) and the remaining input. -/
def branch1 (l : List Char) : Option (Bool × List Char) :=
  if startsTriple l then
    let t := l.drop 3
    let t1 := if startsPython t then t.drop 6 else t
    let ws := t1.takeWhile pyIsSpace
    let rst := t1.dropWhile pyIsSpace
    some (match ws.getLast? with | some c => c == '\n' | none => false, rst)
  else none

/-- The alternative `\s*```$`: the maximal whitespace run, then three
backticks, ending at an end of line.  The last consumed character is a
backtick, so the position after the match is never a line start. -/
def branch2 (l : List Char) : Option (Bool × List Char) :=
  let t := l.dropWhile pyIsSpace
  if startsTriple t then
    let r := t.drop 3
    if eolAt r then some (false, r) else none
  else none

/-- One attempt of the alternation at the current position; the first
alternative is only available at a line start (`bol`). -/
def tryMatch (bol : Bool) (l : List Char) : Option (Bool × List Char) :=
  if bol then
    match branch1 l with
    | some r => some r
    | none => branch2 l
  else branch2 l

/-- The scan loop of `re.sub` for this pattern, with fuel.  Every match
consumes at least three characters and every copy consumes one, so fuel equal
to the length of the input is enough. -/
def subFenceAux : Nat → Bool → List Char → List Char
  | 0, _, l => l
  | fuel + 1, bol, l =>
    match tryMatch bol l with
    | some (bol2, rst) => subFenceAux fuel bol2 rst
    | none =>
      match l with
      | [] => []
      | c :: rest => c :: subFenceAux fuel (c == '\n') rest

/-- The full substitution `re.sub(r"^```(?:python)?\s*|\s*```$", "", l,
flags=re.MULTILINE)` on a character list. -/
def reSubFence (l : List Char) : List Char :=
  subFenceAux l.length true l

/-- The sanitization applied to the raw model reply in `run_chat`
(`src/app/ai_orm.py`): `re.sub(r"^```(?:python)?\s*|\s*```$", "",
raw.strip(), flags=re.MULTILINE).strip()`. -/
def sanitizeReply (raw : String) : String :=
  String.mk (pystrip (reSubFence (pystrip raw.data)))

/-- The fixed instruction block of the f-string assigned to `prompt` in
`generate_filters_with_ai` (`src/app/ai_orm.py` lines 16-139): everything the
literal contains before the interpolated `user_query`, except the double quote
that immediately precedes the interpolation (kept separate in `buildPrompt`). -/
def promptInstructions : String :=
  "\n"
  ++ "    You are a Django ORM query generator. Convert the given natural language query into a valid **single-line** Django ORM call.\n"
  ++ "\n"
  ++ "MODEL STRUCTURE:\n"
  ++ "CandidateProfile.objects.filter(\n"
  ++ "    user__first_name__icontains=…,\n"
  ++ "    dob__exact=… | dob__gt=… | dob__gte=… | dob__lt=… | dob__lte=…,\n"
  ++ "    gender=\x27male\x27 | \x27female\x27 | \x27other\x27 | \x27transgender\x27,  # exact only\n"
  ++ "    user__email__icontains=…,\n"
  ++ "    user__phone__icontains=…,\n"
  ++ "    permanent_address_district__icontains=…,\n"
  ++ "    college__name__icontains=…,\n"
  ++ "    college__district__icontains=…,\n"
  ++ "    college__affiliated_university__icontains=…,\n"
  ++ "    college__category__icontains=…,\n"
  ++ "    college__branch__icontains=…,\n"
  ++ "    college__type__icontains=…,\n"
  ++ "    year_of_passout__icontains=…,\n"
  ++ "    medium__icontains=…,\n"
  ++ "    mode_of_study__icontains=…,\n"
  ++ "    stream__icontains=…,\n"
  ++ "    certifications__name__icontains=…\n"
  ++ "    placement_status= True | False\n"
  ++ ")\n"
  ++ "\n"
  ++ "RULES:\n"
  ++ "1. Return only: `CandidateProfile.objects.filter(...)` or with `.all()[:N]` or `.count()`.\n"
  ++ "2. Output must be a **single line**, with **no markdown**, **no extra text**, and **no quotes** around the call.\n"
  ++ "3. Use `icontains` for all text fields; use **exact match** for gender.\n"
  ++ "4. For `dob`, support filters: `exact`, `gt`, `gte`, `lt`, `lte`.\n"
  ++ "5. Convert number words to digits (e.g., \"five\" → 5).\n"
  ++ "6. If a specific number of students is mentioned (e.g., \"top 5\"), use `.all()[:N]`.\n"
  ++ "7. If the query asks for a count (e.g., \"how many students\"), return `.count()`.\n"
  ++ "8. If any **skill**, **course**, **certifications**, or **subject** is mentioned (e.g., \"Python\", \"Deep Learning\"), match only using:\n"
  ++ "   → `certifications__name__icontains=\x27X\x27`\n"
  ++ "9. For location mentions (e.g., \"students in Chennai\"), match using:\n"
  ++ "   → `permanent_address_district__icontains=\x27Chennai\x27`\n"
  ++ "10. **STRICT Q() usage rules:**\n"
  ++ "    - Always place **all Q(...) conditions first** inside `.filter(...)`, before any normal kwargs.\n"
  ++ "    - Combine OR conditions for repeated fields using Q objects.\n"
  ++ "    - Example: If multiple values for same field (e.g., multiple districts), use:\n"
  ++ "      `Q(permanent_address_district__icontains=\x27A\x27) | Q(permanent_address_district__icontains=\x27B\x27)`\n"
  ++ "    - Combine multiple Q expressions properly using `|` or `&`.\n"
  ++ "    - Do NOT repeat the same keyword argument in `.filter(...)`.\n"
  ++ "\n"
  ++ "SPECIAL CASES:\n"
  ++ "- Engineering Candidates:  \n"
  ++ "  → `college__type__icontains=\x27engineering\x27`\n"
  ++ "- Polytechnic Candidates:  \n"
  ++ "  → `college__type__icontains=\x27polytechnic\x27`\n"
  ++ "- ITI Candidates:  \n"
  ++ "  → `college__type__icontains=\x27iti\x27`\n"
  ++ "- Arts and Science or Arts & Science:  \n"
  ++ "  → `college__type__icontains=\x27arts\x27`\n"
  ++ "- Gender:\n"
  ++ "  - Male → `gender=\x27male\x27`\n"
  ++ "  - Female → `gender=\x27female\x27`\n"
  ++ "  - Other → `gender=\x27other\x27`\n"
  ++ "  - Transgender → `gender=\x27transgender\x27`\n"
  ++ "  \n"
  ++ "PLACEMENT STATUS RULE:\n"
  ++ "- By default, **always include `placement_status=False`** in the filter.\n"
  ++ "- If the query refers to \"experienced\", \"working\", \"already placed\", \"got a job\", \"employed\", etc., \n"
  ++ "  then instead use `placement_status=True`.\n"
  ++ "  \n"
  ++ "CERTIFICATION RULE (IMPORTANT)\n"
  ++ "When matching skills, courses, subjects, or certifications:\n"
  ++ "- ALWAYS use:\n"
  ++ "    certifications__name__icontains=\x27X\x27, certifications__is_uploaded_by_nm=True\n"
  ++ "- Never match certifications where is_uploaded_by_nm=False\n"
  ++ "- Candidate should be INCLUDED if ANY certification with is_uploaded_by_nm=True matches\n"
  ++ "- Non-NM certifications must never be used in filtering.\n"
  ++ "\n"
  ++ "Examples of correct use:\n"
  ++ "    certifications__name__icontains=\x27python\x27, certifications__is_uploaded_by_nm=True\n"
  ++ "    Q(certifications__name__icontains=\x27gen ai\x27, certifications__is_uploaded_by_nm=True)\n"
  ++ "\n"
  ++ "\n"
  ++ "EXAMPLES:\n"
  ++ "- \"Find male candidates from 2025 passout batch taking Deep Learning\"  \n"
  ++ "  → CandidateProfile.objects.filter(certifications__name__icontains=\x27Deep Learning\x27, certifications__is_uploaded_by_nm=True, gender=\x27male\x27, year_of_passout__icontains=\x272025\x27, placement_status=False)\n"
  ++ "\n"
  ++ "- \"Candidates from Chennai with Python skill\"  \n"
  ++ "  → CandidateProfile.objects.filter(certifications__name__icontains=\x27Python\x27, certifications__is_uploaded_by_nm=True, permanent_address_district__icontains=\x27Chennai\x27, placement_status=False)\n"
  ++ "\n"
  ++ "- \"Female engineering candidates in Coimbatore\"  \n"
  ++ "  → CandidateProfile.objects.filter(gender=\x27female\x27, college__type__icontains=\x27engineering\x27, permanent_address_district__icontains=\x27Coimbatore\x27, placement_status=False)\n"
  ++ "\n"
  ++ "- \"Female candidates from Chennai or Chengalpattu with IoT and PEB Design skills\"  \n"
  ++ "  → CandidateProfile.objects.filter(Q(permanent_address_district__icontains=\x27Chennai\x27) | Q(permanent_address_district__icontains=\x27Chengalpattu\x27),Q(certifications__name__icontains=\x27IoT\x27,  certifications__is_uploaded_by_nm=True) | Q(certifications__name__icontains=\x27PEB Design\x27,  certifications__is_uploaded_by_nm=True),gender=\x27female\x27, placement_status=False)\n"
  ++ "  \n"
  ++ "- \"Female engineering candidates in Coimbatore who are currently working\"\n"
  ++ "  → CandidateProfile.objects.filter(gender=\x27female\x27, college__type__icontains=\x27engineering\x27, permanent_address_district__icontains=\x27Coimbatore\x27, placement_status=True)\n"
  ++ "  \n"
  ++ "- \"எனக்கு சென்னையிலிருந்து பெண்கள் தேவை\"\n"
  ++ "  → CandidateProfile.objects.filter(Q(permanent_address_district__icontains=\x27Chennai\x27), gender=\x27female\x27, placement_status=False)\n"
  ++ "\n"
  ++ "- \"எனக்கு சென்னை மற்றும் செங்கல்பட்டில் இருந்து ஐடிஐ மாணவர்கள் வேண்டும்\"\n"
  ++ "  → CandidateProfile.objects.filter(Q(permanent_address_district__icontains=\x27Chennai\x27) | Q(permanent_address_district__icontains=\x27Chengalpattu\x27), college__type__icontains=\x27iti\x27, placement_status=False)\n"
  ++ "\n"
  ++ "- \"எனக்கு சென்னை மற்றும் செங்கல்பட்டில் இருந்து பாலிடெக்னிக் விண்ணப்பதாரர் தேவை\"    \n"
  ++ "  → CandidateProfile.objects.filter(Q(permanent_address_district__icontains=\x27Chennai\x27) | Q(permanent_address_district__icontains=\x27Chengalpattu\x27), college__type__icontains=\x27polytechnic\x27, gender=\x27female\x27, placement_status=False)\n"
  ++ "\n"
  ++ "- \"எனக்கு ஈரோட்டில் இருந்து இன்ஜினியரிங் விண்ணப்பதாரர் தேவை\"\n"
  ++ "  → CandidateProfile.objects.filter(gender=\x27female\x27, college__type__icontains=\x27engineering\x27, permanent_address_district__icontains=\x27Erode\x27, placement_status=False)\n"
  ++ "\n"
  ++ "- I need Candidate who have certifications from industry 4.0\n"
  ++ "  → CandidateProfile.objects.filter(Q(certifications__name__icontains=\x27industry 4.0\x27,  certifications__is_uploaded_by_nm=True) | Q(certifications__name__icontains=\x27iot\x27,  certifications__is_uploaded_by_nm=True) | Q(certifications__name__icontains=\x27machine learning\x27,  certifications__is_uploaded_by_nm=True))\n"
  ++ " \n"
  ++ " - I need male candidates in Coimbatore region who has studied industry 4.0 and passed out in 2024 and 2025 candidates\n"
  ++ "  → CandidateProfile.objects.filter(Q(certifications__name__icontains=\x27industry 4.0\x27,  certifications__is_uploaded_by_nm=True) | Q(certifications__name__icontains=\x27iot\x27,  certifications__is_uploaded_by_nm=True) | Q(certifications__name__icontains=\x27machine learning\x27,  certifications__is_uploaded_by_nm=True),Q(year_of_passout__icontains=\x272024\x27) | Q(year_of_passout__icontains=\x272025\x27),   gender=\x27male\x27,permanent_address_district__icontains=\x27Coimbatore\x27,placement_status=False)\n"
  ++ "  \n"
  ++ "- I need freshers from chennai who have done generative ai skills\n"
  ++ "  → CandidateProfile.objects.filter(certifications__name__icontains=\x27generative ai\x27, certifications__is_uploaded_by_nm=True, permanent_address_district__icontains=\x27chennai\x27, placement_status=False)\n"
  ++ "  \n"
  ++ "- I need experienced candidates who has skill on generative ai\n"
  ++ "  → CandidateProfile.objects.filter(certifications__name__icontains=\x27generative ai\x27, certifications__is_uploaded_by_nm=True, placement_status=True)\n"
  ++ "  \n"
  ++ "- I need Female working professionals with python and gen ai skills from chennai and karur\n"
  ++ "  → CandidateProfile.objects.filter(Q(permanent_address_district__icontains=\x27chennai\x27) | Q(permanent_address_district__icontains=\x27karur\x27),  Q(certifications__name__icontains=\x27python\x27,  certifications__is_uploaded_by_nm=True) |  Q(certifications__name__icontains=\x27generative ai\x27,  certifications__is_uploaded_by_nm=True), gender=\x27female\x27,placement_status=True)\n"
  ++ "  \n"
  ++ "- I Need experienced candidates with iot skills\n"
  ++ "  → CandidateProfile.objects.filter(certifications__name__icontains=\x27iot\x27, certifications__is_uploaded_by_nm=True, placement_status=True)\n"
  ++ "QUERY:\n"

/-- The full prompt f-string of `generate_filters_with_ai`: the instruction
block, then the user query interpolated between double quotes, then the two
newlines that close the literal (end of line 140 and blank line 141). -/
def buildPrompt (user_query : String) : String :=
  promptInstructions ++ "\"" ++ user_query ++ "\"\n\n"

/-- A chat message, modelling the `dict` `\x7b"role": ..., "content": ...\x7d`
passed to `AIService.chat`. -/
structure Message where
  role : String
  content : String
  deriving DecidableEq

/-- The orchestrator `generate_filters_with_ai` of `src/app/ai_orm.py`, with the LLM client
call abstracted as the function `chat` (provider failures modelled by
`Except`).  The body mirrors `run_chat`: one chat call on the one-message
conversation holding the prompt, then the fence sanitization; `asyncio.run`
just blocks on that single coroutine.  The second component is the trace of
chat invocations (the lists of messages sent), built at the unique call
site. -/
def generate_filters_with_ai {ε : Type} (chat : List Message → Except ε String)
    (user_query : String) : Except ε String × List (List Message) :=
  let prompt := buildPrompt user_query
  let msgs : List Message := [⟨"user", prompt⟩]
  ((chat msgs).map (fun raw => sanitizeReply raw), [msgs])

/-- The `message` field of one completion choice (`choices[i].message`). -/
structure ChoiceMessage where
  content : String
  deriving DecidableEq

/-- One candidate of the provider response (`choices[i]`). -/
structure Choice where
  message : ChoiceMessage
  deriving DecidableEq

/-- The provider response, as read by `AIService.chat`: its `choices` list. -/
structure ChatResponse where
  choices : List Choice
  deriving DecidableEq

/-- One completion request as assembled by `AIService.chat`
(`src/services/ai_service.py`): the configured model, the messages, and the
fixed `max_tokens=1024` bound. -/
structure CompletionRequest where
  model : String
  messages : List Message
  max_tokens : Nat
  deriving DecidableEq

/-- The `AIService` of `src/services/ai_service.py`: the configured model name
and the provider reached through `self.client.chat.completions.create`,
abstracted as a function from requests to responses. -/
structure AIService where
  model_name : String
  provider : CompletionRequest → ChatResponse

/-- The method `AIService.chat`: build one request with the configured model and
`max_tokens=1024`, send it, and return `response.choices[0].message.content`
(`none` models the `IndexError` on an empty candidate list).  The second
component is the trace of requests sent, built at the unique call site. -/
def AIService.chat (svc : AIService) (messages : List Message) :
    Option String × List CompletionRequest :=
  let req : CompletionRequest := ⟨svc.model_name, messages, 1024⟩
  let response := svc.provider req
  ((response.choices.head?).map (fun c => c.message.content), [req])

/-- What the `/api/generate` handler produces, as seen by the web framework:
either the `QueryResponse(orm=...)` envelope or a raised `HTTPException`
(status code and detail). -/
inductive EndpointResult where
  | response (orm : String)
  | httpError (status : Nat) (detail : String)
  deriving DecidableEq

/-- Python truthiness of the optional `backend_secret` header string:
`None` and `""` are falsy. -/
def pyTruthy : Option String → Bool
  | none => false
  | some s => !s.isEmpty

/-- The rejection condition of the handler (`src/app/api.py` line 12):
`not backend_secret or backend_secret != SECRET`, where `SECRET` is
`os.getenv("BACKEND_SECRET")` (hence `Option String`) and a `str`-vs-`None`
comparison is inequality of the options. -/
def authRejected (SECRET backend_secret : Option String) : Bool :=
  !pyTruthy backend_secret || backend_secret != SECRET

/-- The `POST /api/generate` handler `generate` (`src/app/api.py`): on a
rejected secret it raises `HTTPException(401, "Invalid credentials")` and does
nothing else; otherwise it calls `generate_filters_with_ai` on the request
query and wraps the result in the response envelope.  A provider failure
(the `Except` layer) passes through uncaught.  The second component is the
trace of queries forwarded to the orchestrator. -/
def generate {ε : Type} (SECRET backend_secret : Option String)
    (chat : List Message → Except ε String) (query : String) :
    Except ε EndpointResult × List String :=
  if authRejected SECRET backend_secret then
    (Except.ok (EndpointResult.httpError 401 "Invalid credentials"), [])
  else
    (((generate_filters_with_ai chat query).1).map EndpointResult.response, [query])

/-- Does the character list contain three consecutive backticks anywhere?
Both regex alternatives require that literal, so a reply without it is left
unchanged by the substitution. -/
def containsTriple : List Char → Bool
  | [] => false
  | c :: t => startsTriple (c :: t) || containsTriple t

end AIOrm

namespace AIOrm

/-! Helper lemmas about the substitution. -/

theorem containsTriple_cons_false {c : Char} {t : List Char}
    (h : containsTriple (c :: t) = false) :
    startsTriple (c :: t) = false ∧ containsTriple t = false := by
  simpa [containsTriple] using h

theorem startsTriple_eq_false {l : List Char} (h : containsTriple l = false) :
    startsTriple l = false := by
  cases l with
  | nil => rfl
  | cons c t => exact (containsTriple_cons_false h).1

theorem containsTriple_dropWhile (p : Char → Bool) {l : List Char}
    (h : containsTriple l = false) : containsTriple (l.dropWhile p) = false := by
  induction l with
  | nil => simpa using h
  | cons c t ih =>
    rcases containsTriple_cons_false h with ⟨h1, h2⟩
    rw [List.dropWhile_cons]
    by_cases hp : p c = true
    · simpa [hp] using ih h2
    · simpa [hp] using h

theorem branch1_eq_none {l : List Char} (h : startsTriple l = false) :
    branch1 l = none := by
  simp [branch1, h]

theorem branch2_eq_none {l : List Char} (h : containsTriple l = false) :
    branch2 l = none := by
  have hs := startsTriple_eq_false (containsTriple_dropWhile pyIsSpace h)
  simp [branch2, hs]

theorem tryMatch_eq_none (bol : Bool) {l : List Char} (h : containsTriple l = false) :
    tryMatch bol l = none := by
  have h1 := branch1_eq_none (startsTriple_eq_false h)
  have h2 := branch2_eq_none h
  cases bol <;> simp [tryMatch, h1, h2]

theorem subFenceAux_of_no_fence :
    ∀ (fuel : Nat) (bol : Bool) (l : List Char),
      containsTriple l = false → subFenceAux fuel bol l = l := by
  intro fuel
  induction fuel with
  | zero => intro bol l _; rfl
  | succ n ih =>
    intro bol l h
    cases l with
    | nil => simp [subFenceAux, tryMatch_eq_none bol h]
    | cons c rest =>
      simp [subFenceAux, tryMatch_eq_none bol h,
        ih (c == '\n') rest (containsTriple_cons_false h).2]

theorem reSubFence_of_no_fence {l : List Char} (h : containsTriple l = false) :
    reSubFence l = l :=
  subFenceAux_of_no_fence _ _ _ h

end AIOrm

namespace AIOrm

/-! Claim theorems. -/

/-- C3: the sanitization step of `run_chat` removes a leading/trailing fenced
code block: on the raw reply made of the line ```` ```python ````, the line
`CandidateProfile.objects.filter(x=1)` and the line ```` ``` ````, the result
is exactly `CandidateProfile.objects.filter(x=1)`, with no surrounding
whitespace and no fence markers. -/
theorem c3_fence_block_stripped :
    sanitizeReply "```python\nCandidateProfile.objects.filter(x=1)\n```" =
      "CandidateProfile.objects.filter(x=1)" := by
  decide

/-- C4, counterexample: the sanitization is not idempotent on every string.
On the raw reply `"```\n ```y"` the first application yields `"```y"` (the
second fence is preceded by a space, so after the leading-fence match ate
`"\n "` the remaining backticks match neither alternative), but a second
application strips the now-leading fence and yields `"y"`. -/
theorem c4_not_idempotent_on_all_strings :
    sanitizeReply (sanitizeReply "```\n ```y") ≠ sanitizeReply "```\n ```y" := by
  decide

/-- C4, amended: applying the sanitization to already-clean text — text with
no three-backtick fence marker anywhere and no leading or trailing
whitespace — returns the same text unchanged. -/
theorem c4_sanitize_fixes_clean_text (s : String)
    (h1 : containsTriple s.data = false) (h2 : pystrip s.data = s.data) :
    sanitizeReply s = s := by
  unfold sanitizeReply
  rw [h2, reSubFence_of_no_fence h1, h2]

/-- Witness for the amended C4 at the concrete clean string
`CandidateProfile.objects.filter(x=1)`. -/
theorem c4_sanitize_fixes_clean_text_witness :
    containsTriple ("CandidateProfile.objects.filter(x=1)" : String).data = false ∧
    pystrip ("CandidateProfile.objects.filter(x=1)" : String).data =
      ("CandidateProfile.objects.filter(x=1)" : String).data ∧
    sanitizeReply "CandidateProfile.objects.filter(x=1)" =
      "CandidateProfile.objects.filter(x=1)" :=
  ⟨by decide, by decide,
    c4_sanitize_fixes_clean_text "CandidateProfile.objects.filter(x=1)"
      (by decide) (by decide)⟩

/-- C10: the substitution runs under `re.MULTILINE`, so fence markers at the
start or end of interior lines are removed in the one substitution pass, not
only those at the boundary of the whole string: a reply with an interior
```` ```python ````/```` ``` ```` block around `b` sanitizes to `a\nb\nc`, and
a trailing block after `x` is removed entirely. -/
theorem c10_multiline_interior_fences_removed :
    sanitizeReply "a\n```python\nb\n```\nc" = "a\nb\nc" ∧
    sanitizeReply "x\n```\n```" = "x" := by
  decide

end AIOrm

namespace AIOrm

/-- C1: a request whose `backend_secret` header is missing, or differs from
the configured shared secret, makes the handler raise the 401
`HTTPException("Invalid credentials")`, and the orchestrator
`generate_filters_with_ai` is never invoked (the trace of forwarded queries
is empty). -/
theorem c1_bad_secret_rejected_without_orchestrator {ε : Type}
    (SECRET backend_secret : Option String)
    (chat : List Message → Except ε String) (query : String)
    (h : backend_secret = none ∨ backend_secret ≠ SECRET) :
    generate SECRET backend_secret chat query =
      (Except.ok (EndpointResult.httpError 401 "Invalid credentials"), []) := by
  have hrej : authRejected SECRET backend_secret = true := by
    rcases h with h | h
    · subst h; simp [authRejected, pyTruthy]
    · have : (backend_secret != SECRET) = true := bne_iff_ne.mpr h
      simp [authRejected, this]
  simp [generate, hrej]

/-- Witness for C1 with a missing header against the secret `"s"`. -/
theorem c1_bad_secret_rejected_without_orchestrator_witness :
    ((none : Option String) = none ∨ (none : Option String) ≠ some "s") ∧
    generate (some "s") none
        (fun _ : List Message => (Except.ok "X" : Except Unit String)) "q" =
      (Except.ok (EndpointResult.httpError 401 "Invalid credentials"), []) :=
  ⟨Or.inl rfl,
    c1_bad_secret_rejected_without_orchestrator (some "s") none _ "q" (Or.inl rfl)⟩

/-- C2: on a request that passes the secret check, the handler returns the
success envelope whose single `orm` field is exactly the string produced by
`generate_filters_with_ai` for the supplied query, unmodified. -/
theorem c2_success_envelope_is_orchestrator_output {ε : Type}
    (SECRET backend_secret : Option String)
    (chat : List Message → Except ε String) (query orm : String)
    (hauth : authRejected SECRET backend_secret = false)
    (horch : (generate_filters_with_ai chat query).1 = Except.ok orm) :
    (generate SECRET backend_secret chat query).1 =
      Except.ok (EndpointResult.response orm) := by
  simp [generate, hauth, horch, Except.map]

/-- Witness for C2: matching secret `"s"`, a stubbed chat returning `"X"`
(already clean, so the sanitized output is `"X"` itself). -/
theorem c2_success_envelope_is_orchestrator_output_witness :
    authRejected (some "s") (some "s") = false ∧
    (generate_filters_with_ai
        (fun _ : List Message => (Except.ok "X" : Except Unit String)) "find").1 =
      Except.ok "X" ∧
    (generate (some "s") (some "s")
        (fun _ : List Message => (Except.ok "X" : Except Unit String)) "find").1 =
      Except.ok (EndpointResult.response "X") :=
  ⟨by decide, rfl,
    c2_success_envelope_is_orchestrator_output (some "s") (some "s") _ "find" "X"
      (by decide) rfl⟩

/-- C8: when the chat call fails, the failure propagates uncaught through both
`generate_filters_with_ai` and the `/api/generate` handler: on an
authenticated request whose chat call raises `e`, both return that very
error, untransformed. -/
theorem c8_provider_error_propagates_uncaught {ε : Type}
    (SECRET backend_secret : Option String)
    (chat : List Message → Except ε String) (query : String) (e : ε)
    (hauth : authRejected SECRET backend_secret = false)
    (hchat : chat [⟨"user", buildPrompt query⟩] = Except.error e) :
    (generate_filters_with_ai chat query).1 = Except.error e ∧
    (generate SECRET backend_secret chat query).1 = Except.error e := by
  have h1 : (generate_filters_with_ai chat query).1 = Except.error e := by
    simp [generate_filters_with_ai, hchat, Except.map]
  exact ⟨h1, by simp [generate, hauth, h1, Except.map]⟩

/-- Witness for C8: matching secret `"s"`, a chat stub that always fails with
the error code `7`. -/
theorem c8_provider_error_propagates_uncaught_witness :
    authRejected (some "s") (some "s") = false ∧
    (fun _ : List Message => (Except.error 7 : Except Nat String))
        [⟨"user", buildPrompt "q"⟩] = Except.error 7 ∧
    (generate_filters_with_ai
        (fun _ : List Message => (Except.error 7 : Except Nat String)) "q").1 =
      Except.error 7 ∧
    (generate (some "s") (some "s")
        (fun _ : List Message => (Except.error 7 : Except Nat String)) "q").1 =
      Except.error 7 :=
  ⟨by decide, rfl,
    c8_provider_error_propagates_uncaught (some "s") (some "s") _ "q" 7
      (by decide) rfl⟩

/-- C9: authentication fails closed.  If `BACKEND_SECRET` is unset
(`SECRET = none`) every request is rejected with the 401 exception, whatever
the header holds; and a request whose header is the empty string is rejected
for every configured secret, the empty secret included. -/
theorem c9_auth_fails_closed :
    (∀ (ε : Type) (header : Option String)
        (chat : List Message → Except ε String) (query : String),
      generate none header chat query =
        (Except.ok (EndpointResult.httpError 401 "Invalid credentials"), [])) ∧
    (∀ (ε : Type) (SECRET : Option String)
        (chat : List Message → Except ε String) (query : String),
      generate SECRET (some "") chat query =
        (Except.ok (EndpointResult.httpError 401 "Invalid credentials"), [])) := by
  constructor
  · intro ε header chat query
    have hrej : authRejected none header = true := by
      cases header with
      | none => simp [authRejected, pyTruthy]
      | some s =>
        have : (some s != (none : Option String)) = true :=
          bne_iff_ne.mpr (by simp)
        simp [authRejected, this]
    simp [generate, hrej]
  · intro ε SECRET chat query
    have hrej : authRejected SECRET (some "") = true := by
      simp [authRejected, pyTruthy, String.isEmpty]
    simp [generate, hrej]

end AIOrm

namespace AIOrm

/-- C5: on every invocation (whatever the chat oracle and the outcome), the
orchestrator issues exactly one chat call, whose conversation is exactly one
message with role `user` and the full built prompt as content; the trace
never holds a second (retry) call. -/
theorem c5_exactly_one_chat_call {ε : Type}
    (chat : List Message → Except ε String) (user_query : String) :
    (generate_filters_with_ai chat user_query).2 =
      [[⟨"user", buildPrompt user_query⟩]] :=
  rfl

/-- C6: for every message list and configured model identifier, the client
sends exactly one completion request, with the fixed `max_tokens = 1024`
bound, and whenever the provider response has at least one candidate the
returned value is the content of the first one
(`response.choices[0].message.content`). -/
theorem c6_client_one_request_first_choice (svc : AIService)
    (messages : List Message) :
    (svc.chat messages).2 = [⟨svc.model_name, messages, 1024⟩] ∧
    ∀ (c : Choice) (rest : List Choice),
      (svc.provider ⟨svc.model_name, messages, 1024⟩).choices = c :: rest →
      (svc.chat messages).1 = some c.message.content := by
  refine ⟨rfl, ?_⟩
  intro c rest h
  simp [AIService.chat, h]

/-- Witness for C6 at a concrete service whose provider answers with the
single candidate `"OUT"`. -/
theorem c6_client_one_request_first_choice_witness :
    ((AIService.mk "m" (fun _ => ChatResponse.mk [Choice.mk (ChoiceMessage.mk "OUT")])).provider
        (CompletionRequest.mk "m" [] 1024)).choices =
      Choice.mk (ChoiceMessage.mk "OUT") :: [] ∧
    (AIService.chat
        (AIService.mk "m" (fun _ => ChatResponse.mk [Choice.mk (ChoiceMessage.mk "OUT")]))
        []).1 = some "OUT" :=
  ⟨rfl,
    (c6_client_one_request_first_choice
        (AIService.mk "m" (fun _ => ChatResponse.mk [Choice.mk (ChoiceMessage.mk "OUT")]))
        []).2
      (Choice.mk (ChoiceMessage.mk "OUT")) [] rfl⟩

/-- C7: prompt construction is a pure, total, deterministic function of the
user query (it is a Lean function, so it performs no I/O and cannot fail):
for every query the produced prompt is the fixed instruction block followed
by the literal query text enclosed in double quotes, then the two closing
newlines of the f-string literal. -/
theorem c7_prompt_is_block_plus_quoted_query (user_query : String) :
    buildPrompt user_query =
      promptInstructions ++ "\"" ++ user_query ++ "\"" ++ "\n\n" := by
  simp [buildPrompt, String.append_assoc]

end AIOrm
